import Mathlib

/-!
Verification development for the fronius-to-influx collector
(`src/fronius_to_influx.py`).

The embedding models the JSON documents handled by the collector as an
inductive `Json` type (numbers as rationals), Python exceptions as the
`PyErr` type, and each method of `FroniusToInflux` as a Lean function on
that data.  The mutable instance attribute `self.data` is threaded
explicitly.  The `run` loop is modelled as a step function driven by an
oracle (`CycleInput`) giving the outcome of the sun-gate check, of each
endpoint fetch (`requests.get` + `.json()`), and of the sink write;
sleeps and sink invocations are recorded as events.
-/

/-- A JSON document, as produced by `response.json()`.  Numbers are
modelled as rationals; objects as ordered association lists, mirroring
insertion-ordered Python dicts. -/
inductive Json where
  | null
  | bool (b : Bool)
  | num (q : Rat)
  | str (s : String)
  | arr (elems : List Json)
  | obj (entries : List (String × Json))

/-- The Python exceptions the collector can raise or observe.
`wrongFroniusData`, `sunIsDown` and `dataCollectionError` are the
classes defined in the source; the rest are builtin / library
exceptions. -/
inductive PyErr where
  | keyError (k : String)
  | typeError
  | valueError
  | attributeError
  | wrongFroniusData
  | dataCollectionError
  | sunIsDown
  | connectionError
  | keyboardInterrupt
  | jsonDecodeError
  | sinkWriteError
deriving Repr, DecidableEq

/-- First binding of a key in an association list (Python dict lookup;
keys of a parsed JSON object are unique). -/
def jlookup : List (String × Json) → String → Option Json
  | [], _ => none
  | (k, v) :: rest, key => if k = key then some v else jlookup rest key

/-- Python subscript `j[k]` with a string key: `KeyError` when the key is
absent from a dict, `TypeError` when `j` is not a dict. -/
def pyGetItem : Json → String → Except PyErr Json
  | .obj kvs, k =>
      match jlookup kvs k with
      | some v => .ok v
      | none => .error (.keyError k)
  | _, _ => .error .typeError

/-- Python `j.get(k, default)`: only dicts have `.get`
(`AttributeError` otherwise). -/
def pyDictGet : Json → String → Json → Except PyErr Json
  | .obj kvs, k, dflt => .ok ((jlookup kvs k).getD dflt)
  | _, _, _ => .error .attributeError

/-- Python membership test `k in j` for a dict. -/
def hasKey : Json → String → Bool
  | .obj kvs, k => (jlookup kvs k).isSome
  | _, _ => false

/-- Python truthiness of a JSON value (`if result:`). -/
def truthy : Json → Bool
  | .null => false
  | .bool b => b
  | .num q => q ≠ 0
  | .str s => s ≠ ""
  | .arr elems => !elems.isEmpty
  | .obj entries => !entries.isEmpty

/-- Python `float(result)` on a JSON value, for the values the device
protocol carries (`Value` entries are numeric or null per the contract).
Numeric-string parsing is not modelled: a non-numeric operand fails. -/
def pyFloat : Json → Except PyErr Rat
  | .num q => .ok q
  | .bool b => .ok (if b then 1 else 0)
  | _ => .error .valueError

/-- Python dict assignment `d[k] = v`: replace in place when the key is
present, append otherwise. -/
def objSet (kvs : List (String × Json)) (k : String) (v : Json) : List (String × Json) :=
  if (jlookup kvs k).isSome then
    kvs.map (fun p => if p.1 = k then (k, v) else p)
  else
    kvs ++ [(k, v)]

/-- `self.data['Body']['Data']`, errors propagating as in a Python
subscript chain. -/
def bodyData (sdata : Json) : Except PyErr Json :=
  match pyGetItem sdata "Body" with
  | .error e => .error e
  | .ok b => pyGetItem b "Data"

/-- `self.data['Head']['RequestArguments']['DataCollection']`. -/
def headCollection (sdata : Json) : Except PyErr Json :=
  match pyGetItem sdata "Head" with
  | .error e => .error e
  | .ok h =>
    match pyGetItem h "RequestArguments" with
    | .error e => .error e
    | .ok ra => pyGetItem ra "DataCollection"

/-- `self.data['Head']['Timestamp']`. -/
def headTimestamp (sdata : Json) : Except PyErr Json :=
  match pyGetItem sdata "Head" with
  | .error e => .error e
  | .ok h => pyGetItem h "Timestamp"

/-- `FroniusToInflux.get_float_or_zero(value)`; `sdata` is `self.data`.
The `try`/`except KeyError` around `self.data['Body']['Data']` turns a
`KeyError` (and only a `KeyError`) into `WrongFroniusData`. -/
def get_float_or_zero (sdata : Json) (value : String) : Except PyErr Rat :=
  match bodyData sdata with
  | .error (.keyError _) => .error .wrongFroniusData
  | .error e => .error e
  | .ok internal_data =>
    match pyDictGet internal_data value (.obj []) with
    | .error e => .error e
    | .ok tmp =>
      match pyDictGet tmp "Value" (.num 0) with
      | .error e => .error e
      | .ok result =>
        if truthy result then pyFloat result else .ok 0

/-- Python `collection == "literal"`: equality of a JSON value with a
string literal is `False` whenever the value is not that string. -/
def jstrEq (j : Json) (s : String) : Bool :=
  match j with
  | .str c => c = s
  | _ => false

/-- A normalized output point (`measurement`/`time`/`fields` dict). -/
structure Point where
  measurement : String
  time : Json
  fields : Json

/-- The fields dict of the `CommonInverterData` point: the nine fixed
entries written in literal order, then the conditional GEN24 Symo
fields appended by the `fields_strings` loop.  `sdata` is `self.data`,
`data` is `self.data['Body']['Data']`. -/
def commonFields (sdata data : Json) : Except PyErr Json := do
  let fFAC ← get_float_or_zero sdata "FAC"
  let fIAC ← get_float_or_zero sdata "IAC"
  let fIDC ← get_float_or_zero sdata "IDC"
  let fPAC ← get_float_or_zero sdata "PAC"
  let fUAC ← get_float_or_zero sdata "UAC"
  let fUDC ← get_float_or_zero sdata "UDC"
  let fDAY ← get_float_or_zero sdata "DAY_ENERGY"
  let fYEAR ← get_float_or_zero sdata "YEAR_ENERGY"
  let fTOTAL ← get_float_or_zero sdata "TOTAL_ENERGY"
  let fields ←
    ((if hasKey data "SAC" then ["SAC"] else []) ++
     (if hasKey data "IDC_2" then ["IDC_2", "UDC_2"] else []) ++
     (if hasKey data "IDC_3" then ["IDC_3", "UDC_3"] else []) ++
     (if hasKey data "IDC_4" then ["IDC_4", "UDC_4"] else [])).foldlM
      (fun acc f => do
        let v ← get_float_or_zero sdata f
        pure (objSet acc f (.num v)))
      [("FAC", .num fFAC), ("IAC", .num fIAC), ("IDC", .num fIDC),
       ("PAC", .num fPAC), ("UAC", .num fUAC), ("UDC", .num fUDC),
       ("DAY_ENERGY", .num fDAY), ("YEAR_ENERGY", .num fYEAR),
       ("TOTAL_ENERGY", .num fTOTAL)]
  pure (.obj fields)

/-- The fields dict of the `3PInverterData` point. -/
def threePFields (sdata : Json) : Except PyErr Json := do
  let f1 ← get_float_or_zero sdata "IAC_L1"
  let f2 ← get_float_or_zero sdata "IAC_L2"
  let f3 ← get_float_or_zero sdata "IAC_L3"
  let f4 ← get_float_or_zero sdata "UAC_L1"
  let f5 ← get_float_or_zero sdata "UAC_L2"
  let f6 ← get_float_or_zero sdata "UAC_L3"
  pure (.obj [("IAC_L1", .num f1), ("IAC_L2", .num f2), ("IAC_L3", .num f3),
              ("UAC_L1", .num f4), ("UAC_L2", .num f5), ("UAC_L3", .num f6)])

/-- The fields dict of the `MinMaxInverterData` point. -/
def minMaxFields (sdata : Json) : Except PyErr Json := do
  let f1 ← get_float_or_zero sdata "DAY_PMAX"
  let f2 ← get_float_or_zero sdata "DAY_UACMAX"
  let f3 ← get_float_or_zero sdata "DAY_UDCMAX"
  let f4 ← get_float_or_zero sdata "YEAR_PMAX"
  let f5 ← get_float_or_zero sdata "YEAR_UACMAX"
  let f6 ← get_float_or_zero sdata "YEAR_UDCMAX"
  let f7 ← get_float_or_zero sdata "TOTAL_PMAX"
  let f8 ← get_float_or_zero sdata "TOTAL_UACMAX"
  let f9 ← get_float_or_zero sdata "TOTAL_UDCMAX"
  pure (.obj [("DAY_PMAX", .num f1), ("DAY_UACMAX", .num f2), ("DAY_UDCMAX", .num f3),
              ("YEAR_PMAX", .num f4), ("YEAR_UACMAX", .num f5), ("YEAR_UDCMAX", .num f6),
              ("TOTAL_PMAX", .num f7), ("TOTAL_UACMAX", .num f8), ("TOTAL_UDCMAX", .num f9)])

/-- `FroniusToInflux.translate_response`; `sdata` is `self.data`.

Evaluation order follows the source: the `Head` lookups for `collection`
and `timestamp` first, then the f-string of the debug log call, whose
interpolation evaluates `self.data['Body']['Data']` eagerly (so a
missing `Body`/`Data` key surfaces here as a plain `KeyError`), then the
branch selected by `collection`.  In the `CommonInverterData` branch the
`DeviceStatus` point is built first — `data['DeviceStatus']` is an
unguarded subscript — and its fields are the sub-object copied
verbatim. -/
def translate_response (sdata : Json) : Except PyErr (List Point) :=
  match headCollection sdata with
  | .error e => .error e
  | .ok collection =>
  match headTimestamp sdata with
  | .error e => .error e
  | .ok timestamp =>
  match bodyData sdata with
  | .error e => .error e
  | .ok _ =>
  if jstrEq collection "CommonInverterData" then
    match bodyData sdata with
    | .error e => .error e
    | .ok data =>
    match pyGetItem data "DeviceStatus" with
    | .error e => .error e
    | .ok ds =>
    match commonFields sdata data with
    | .error e => .error e
    | .ok fields =>
      .ok [⟨"DeviceStatus", timestamp, ds⟩,
           ⟨"CommonInverterData", timestamp, fields⟩]
  else if jstrEq collection "3PInverterData" then
    match threePFields sdata with
    | .error e => .error e
    | .ok fields => .ok [⟨"3PInverterData", timestamp, fields⟩]
  else if jstrEq collection "MinMaxInverterData" then
    match minMaxFields sdata with
    | .error e => .error e
    | .ok fields => .ok [⟨"MinMaxInverterData", timestamp, fields⟩]
  else
    .error .dataCollectionError

/-- `FroniusToInflux.sun_is_shining`.  Time values are abstract instants
ordered as integers; `ignoreSunDown` is the `IGNORE_SUN_DOWN` flag.
The chained comparison `sunrise < now < sunset` is strict on both
sides. -/
def sun_is_shining (ignoreSunDown : Bool) (sunrise now sunset : Int) : Except PyErr Unit :=
  if !ignoreSunDown && !(decide (sunrise < now) && decide (now < sunset)) then
    .error .sunIsDown
  else
    .ok ()

/-- `BACKOFF_INTERVAL`. -/
def BACKOFF_INTERVAL : Nat := 3

/-- Observable actions of one pass through the loop body: timed sleeps
and sink write invocations (`write_data_points`). -/
inductive Ev where
  | slept (seconds : Nat)
  | wrote (batch : List Point)

/-- Oracle for one iteration of the `while True:` body: the outcome of
`sun_is_shining` (`none` = gate passed), the outcome of
`get(url)`/`response.json()` for each endpoint in order, and the outcome
of the sink write.  An exception at any of these sites (including a
`KeyboardInterrupt` delivered there) is an `error` value. -/
structure CycleInput where
  sunErr : Option PyErr
  fetches : List (Except PyErr Json)
  sinkErr : Option PyErr

/-- Result of the endpoint loop: final `self.data`, recorded events, and
either the accumulated `collected_data` batch or the exception that
aborted the loop. -/
structure EpResult where
  data : Json
  events : List Ev
  res : Except PyErr (List Point)

/-- Result of one pass through the `try:` body. -/
structure CycleResult where
  data : Json
  events : List Ev
  err : Option PyErr

/-- Result of one full supervised iteration (body plus `except`
handlers): final `self.data`, events, and whether the loop stops
(`KeyboardInterrupt` reaching the outer handler). -/
structure StepResult where
  data : Json
  events : List Ev
  stopped : Bool

/-- The `for url in self.endpoints:` loop: fetch, store into
`self.data`, translate, extend `collected_data`, sleep
`BACKOFF_INTERVAL`.  Any exception aborts the loop at once. -/
def cycleEndpoints : Json → List (Except PyErr Json) → List Point → EpResult
  | sdata, [], acc => ⟨sdata, [], .ok acc⟩
  | sdata, f :: rest, acc =>
    match f with
    | .error e => ⟨sdata, [], .error e⟩
    | .ok j =>
      match translate_response j with
      | .error e => ⟨j, [], .error e⟩
      | .ok pts =>
        let r := cycleEndpoints j rest (acc ++ pts)
        ⟨r.data, .slept BACKOFF_INTERVAL :: r.events, r.res⟩

/-- One pass through the `try:` body of `run`: gate check, endpoint
loop, then `write_data_points(collected_data)` and the final sleep.  The
sink is invoked (a `wrote` event) only when every endpoint succeeded. -/
def cycleBody (sdata : Json) (inp : CycleInput) : CycleResult :=
  match inp.sunErr with
  | some e => ⟨sdata, [], some e⟩
  | none =>
    let r := cycleEndpoints sdata inp.fetches []
    match r.res with
    | .error e => ⟨r.data, r.events, some e⟩
    | .ok batch =>
      match inp.sinkErr with
      | some e => ⟨r.data, r.events ++ [.wrote batch], some e⟩
      | none => ⟨r.data, r.events ++ [.wrote batch, .slept BACKOFF_INTERVAL], none⟩

/-- One supervised iteration: the body's exception is classified by the
`except` clauses — `SunIsDown` sleeps 60, `ConnectionError` sleeps 10,
any other `Exception` clears `self.data` and sleeps 10.
`KeyboardInterrupt` is not an `Exception` in Python, so it escapes to
the outer handler and stops the loop. -/
def superviseStep (sdata : Json) (inp : CycleInput) : StepResult :=
  let r := cycleBody sdata inp
  match r.err with
  | none => ⟨r.data, r.events, false⟩
  | some .sunIsDown => ⟨r.data, r.events ++ [.slept 60], false⟩
  | some .connectionError => ⟨r.data, r.events ++ [.slept 10], false⟩
  | some .keyboardInterrupt => ⟨r.data, r.events, true⟩
  | some _ => ⟨.obj [], r.events ++ [.slept 10], false⟩

/-- The `while True:` loop driven by a finite stream of cycle oracles:
it consumes the whole stream unless a step stops it. -/
def runLoop : Json → List CycleInput → List Ev
  | _, [] => []
  | sdata, inp :: rest =>
    let s := superviseStep sdata inp
    if s.stopped then s.events else s.events ++ runLoop s.data rest

/-- The sink invocations recorded in a list of events. -/
def writes (evs : List Ev) : List (List Point) :=
  evs.filterMap (fun e => match e with | .wrote b => some b | _ => none)

/-- A well-formed `3PInverterData` response with an empty data section
(every field falls back to the default and reads as zero). -/
def d3P : Json :=
  .obj [("Head", .obj [("RequestArguments", .obj [("DataCollection", .str "3PInverterData")]),
                       ("Timestamp", .str "T1")]),
        ("Body", .obj [("Data", .obj [])])]

/-- The data section of `dCommon`: a `DeviceStatus` sub-object, one
populated field and the GEN24 `SAC` field. -/
def dCommonData : List (String × Json) :=
  [("DeviceStatus", .obj [("StatusCode", .num 7)]),
   ("FAC", .obj [("Value", .num 50)]),
   ("SAC", .obj [("Value", .num 12)])]

/-- A well-formed `CommonInverterData` response built on
`dCommonData`. -/
def dCommon : Json :=
  .obj [("Head", .obj [("RequestArguments", .obj [("DataCollection", .str "CommonInverterData")]),
                       ("Timestamp", .str "T2")]),
        ("Body", .obj [("Data", .obj dCommonData)])]

/-- A response with a recognized collection type but no `Body` entry. -/
def dNoBody : Json :=
  .obj [("Head", .obj [("RequestArguments", .obj [("DataCollection", .str "CommonInverterData")]),
                       ("Timestamp", .str "T3")])]

/-- A response with an unrecognized collection type and no `Body`
entry. -/
def dFoo : Json :=
  .obj [("Head", .obj [("RequestArguments", .obj [("DataCollection", .str "Foo")]),
                       ("Timestamp", .num 0)])]

/-- A response with an unrecognized collection type and a present
`Body.Data` section. -/
def dFooBody : Json :=
  .obj [("Head", .obj [("RequestArguments", .obj [("DataCollection", .str "Foo")]),
                       ("Timestamp", .num 0)]),
        ("Body", .obj [("Data", .obj [])])]

/-- A `CommonInverterData` response whose data section lacks the
`DeviceStatus` key. -/
def dNoDS : Json :=
  .obj [("Head", .obj [("RequestArguments", .obj [("DataCollection", .str "CommonInverterData")]),
                       ("Timestamp", .str "T4")]),
        ("Body", .obj [("Data", .obj [("FAC", .obj [("Value", .num 1)])])])]

/-- The translation of `d3P`: one all-zero `3PInverterData` point. -/
def pts3P : List Point :=
  [⟨"3PInverterData", .str "T1",
    .obj [("IAC_L1", .num 0), ("IAC_L2", .num 0), ("IAC_L3", .num 0),
          ("UAC_L1", .num 0), ("UAC_L2", .num 0), ("UAC_L3", .num 0)]⟩]

/-- Oracle for a cycle stopped by the daylight gate. -/
def inpSun : CycleInput := ⟨some .sunIsDown, [], none⟩

/-- Oracle for a cycle whose single endpoint fetch raises a generic
(non-connection) error. -/
def inpTypeErr : CycleInput := ⟨none, [.error .typeError], none⟩

/-- Oracle for a fully successful cycle over one endpoint serving
`d3P`. -/
def inpOk : CycleInput := ⟨none, [.ok d3P], none⟩

example : translate_response d3P = .ok pts3P := rfl

example : translate_response dCommon =
    .ok [⟨"DeviceStatus", .str "T2", .obj [("StatusCode", .num 7)]⟩,
         ⟨"CommonInverterData", .str "T2",
          .obj [("FAC", .num 50), ("IAC", .num 0), ("IDC", .num 0),
                ("PAC", .num 0), ("UAC", .num 0), ("UDC", .num 0),
                ("DAY_ENERGY", .num 0), ("YEAR_ENERGY", .num 0),
                ("TOTAL_ENERGY", .num 0), ("SAC", .num 12)]⟩] := rfl

example : translate_response dNoBody = .error (.keyError "Body") := rfl
example : translate_response dFoo = .error (.keyError "Body") := rfl
example : translate_response dFooBody = .error .dataCollectionError := rfl
example : translate_response dNoDS = .error (.keyError "DeviceStatus") := rfl
example : get_float_or_zero dNoBody "FAC" = .error .wrongFroniusData := rfl
example : get_float_or_zero dCommon "FAC" = .ok 50 := rfl
example : get_float_or_zero dCommon "IAC" = .ok 0 := rfl

lemma jlookup_eq_none {kvs : List (String × Json)} {k : String} :
    jlookup kvs k = none ↔ k ∉ kvs.map Prod.fst := by
  induction kvs with
  | nil => simp [jlookup]
  | cons p rest ih =>
    obtain ⟨k', v⟩ := p
    simp only [jlookup, List.map_cons, List.mem_cons]
    by_cases hk : k' = k
    · subst hk; simp
    · have hk' : ¬k = k' := fun h => hk h.symm
      simp [hk, ih, hk', not_or]

lemma jlookup_append_of_none {xs ys : List (String × Json)} {k : String}
    (h : jlookup xs k = none) : jlookup (xs ++ ys) k = jlookup ys k := by
  induction xs with
  | nil => simp
  | cons p rest ih =>
    obtain ⟨k', v⟩ := p
    by_cases hk : k' = k
    · simp [jlookup, hk] at h
    · simp [jlookup, hk] at h ⊢
      exact ih h

lemma objSet_of_none {kvs : List (String × Json)} {k : String} {v : Json}
    (h : jlookup kvs k = none) : objSet kvs k v = kvs ++ [(k, v)] := by
  simp [objSet, h]

lemma except_bind_ok {α β : Type} (a : α) (f : α → Except PyErr β) :
    (Except.ok a >>= f) = f a := rfl

lemma except_bind_err {α β : Type} (e : PyErr) (f : α → Except PyErr β) :
    ((Except.error e : Except PyErr α) >>= f) = .error e := rfl

lemma except_pure {α : Type} (a : α) : (pure a : Except PyErr α) = .ok a := rfl

lemma foldlM_objSet_keys (sdata : Json) :
    ∀ (fs : List String) (acc out : List (String × Json)),
    fs.Nodup → (∀ f ∈ fs, jlookup acc f = none) →
    fs.foldlM (fun acc f => do
      let v ← get_float_or_zero sdata f
      pure (objSet acc f (.num v))) acc = .ok out →
    out.map Prod.fst = acc.map Prod.fst ++ fs := by
  intro fs
  induction fs with
  | nil =>
    intro acc out _ _ h
    simp only [List.foldlM, except_pure] at h
    cases h
    simp
  | cons f rest ih =>
    intro acc out hnd hfresh h
    simp only [List.foldlM] at h
    cases hg : get_float_or_zero sdata f with
    | error e => rw [hg, except_bind_err, except_bind_err] at h; cases h
    | ok v =>
      rw [hg, except_bind_ok, except_pure, except_bind_ok] at h
      have hfr : jlookup acc f = none := hfresh f (by simp)
      rw [objSet_of_none hfr] at h
      have hnd' := hnd.of_cons
      have hne : f ∉ rest := (List.nodup_cons.mp hnd).1
      have hfresh' : ∀ g ∈ rest, jlookup (acc ++ [(f, Json.num v)]) g = none := by
        intro g hg'
        rw [jlookup_append_of_none (hfresh g (by simp [hg']))]
        have : f ≠ g := fun hfg => hne (hfg ▸ hg')
        simp [jlookup, this]
      have := ih (acc ++ [(f, Json.num v)]) out hnd' hfresh' h
      simpa using this

lemma gen24_mem {data : Json} {f : String}
    (hf : f ∈ (if hasKey data "SAC" then ["SAC"] else []) ++
              (if hasKey data "IDC_2" then ["IDC_2", "UDC_2"] else []) ++
              (if hasKey data "IDC_3" then ["IDC_3", "UDC_3"] else []) ++
              (if hasKey data "IDC_4" then ["IDC_4", "UDC_4"] else [])) :
    f ∈ ["SAC", "IDC_2", "UDC_2", "IDC_3", "UDC_3", "IDC_4", "UDC_4"] := by
  simp only [List.mem_append] at hf
  rcases hf with ((h | h) | h) | h <;> (split at h <;> simp_all) <;> tauto

lemma jstrEq_true {c : Json} {s : String} : jstrEq c s = true ↔ c = .str s := by
  cases c <;> simp [jstrEq]

lemma bind_ne_dce {α β : Type} {x : Except PyErr α} {f : α → Except PyErr β}
    (hx : x ≠ .error .dataCollectionError)
    (hf : ∀ a, f a ≠ .error .dataCollectionError) :
    (x >>= f) ≠ .error .dataCollectionError := by
  cases x with
  | error e =>
    rw [except_bind_err]
    intro hc
    injection hc with h2
    exact hx (by rw [h2])
  | ok a => rw [except_bind_ok]; exact hf a

lemma pyGetItem_ne_dce {j : Json} {k : String} :
    pyGetItem j k ≠ .error .dataCollectionError := by
  cases j <;> simp [pyGetItem] <;> split <;> simp

lemma pyDictGet_ne_dce {j dflt : Json} {k : String} :
    pyDictGet j k dflt ≠ .error .dataCollectionError := by
  cases j <;> simp [pyDictGet]

lemma pyFloat_ne_dce {j : Json} : pyFloat j ≠ .error .dataCollectionError := by
  cases j <;> simp [pyFloat]

lemma bodyData_ne_dce {d : Json} : bodyData d ≠ .error .dataCollectionError := by
  intro hc
  unfold bodyData at hc
  cases h : pyGetItem d "Body" with
  | error e =>
    simp only [h] at hc
    injection hc with h2
    exact pyGetItem_ne_dce (h2 ▸ h)
  | ok b =>
    simp only [h] at hc
    exact pyGetItem_ne_dce hc

lemma headTimestamp_ne_dce {d : Json} : headTimestamp d ≠ .error .dataCollectionError := by
  intro hc
  unfold headTimestamp at hc
  cases h : pyGetItem d "Head" with
  | error e =>
    simp only [h] at hc
    injection hc with h2
    exact pyGetItem_ne_dce (h2 ▸ h)
  | ok b =>
    simp only [h] at hc
    exact pyGetItem_ne_dce hc

lemma gfz_ne_dce {d : Json} {f : String} :
    get_float_or_zero d f ≠ .error .dataCollectionError := by
  intro hc
  unfold get_float_or_zero at hc
  cases h : bodyData d with
  | error e =>
    cases e <;> simp only [h] at hc <;>
      first
      | (injection hc with h2; cases h2)
      | exact bodyData_ne_dce h
  | ok internal =>
    simp only [h] at hc
    cases h2 : pyDictGet internal f (.obj []) with
    | error e => simp only [h2] at hc; injection hc with h3; exact pyDictGet_ne_dce (h3 ▸ h2)
    | ok tmp =>
      simp only [h2] at hc
      cases h3 : pyDictGet tmp "Value" (.num 0) with
      | error e => simp only [h3] at hc; injection hc with h4; exact pyDictGet_ne_dce (h4 ▸ h3)
      | ok result =>
        simp only [h3] at hc
        by_cases ht : truthy result
        · rw [if_pos ht] at hc; exact pyFloat_ne_dce hc
        · rw [if_neg ht] at hc; cases hc

lemma foldlM_gfz_ne_dce (sdata : Json) :
    ∀ (fs : List String) (acc : List (String × Json)),
    fs.foldlM (fun acc f => do
      let v ← get_float_or_zero sdata f
      pure (objSet acc f (.num v))) acc ≠ .error .dataCollectionError := by
  intro fs
  induction fs with
  | nil => intro acc; simp [List.foldlM, except_pure]
  | cons f rest ih =>
    intro acc
    simp only [List.foldlM]
    refine bind_ne_dce (bind_ne_dce gfz_ne_dce ?_) ?_
    · intro v; simp [except_pure]
    · intro acc'; exact ih acc'

lemma commonFields_ne_dce {sdata data : Json} :
    commonFields sdata data ≠ .error .dataCollectionError := by
  unfold commonFields
  refine bind_ne_dce gfz_ne_dce fun _ => ?_
  refine bind_ne_dce gfz_ne_dce fun _ => ?_
  refine bind_ne_dce gfz_ne_dce fun _ => ?_
  refine bind_ne_dce gfz_ne_dce fun _ => ?_
  refine bind_ne_dce gfz_ne_dce fun _ => ?_
  refine bind_ne_dce gfz_ne_dce fun _ => ?_
  refine bind_ne_dce gfz_ne_dce fun _ => ?_
  refine bind_ne_dce gfz_ne_dce fun _ => ?_
  refine bind_ne_dce gfz_ne_dce fun _ => ?_
  refine bind_ne_dce (foldlM_gfz_ne_dce sdata _ _) fun _ => ?_
  simp [except_pure]

lemma threePFields_ne_dce {sdata : Json} :
    threePFields sdata ≠ .error .dataCollectionError := by
  unfold threePFields
  refine bind_ne_dce gfz_ne_dce fun _ => ?_
  refine bind_ne_dce gfz_ne_dce fun _ => ?_
  refine bind_ne_dce gfz_ne_dce fun _ => ?_
  refine bind_ne_dce gfz_ne_dce fun _ => ?_
  refine bind_ne_dce gfz_ne_dce fun _ => ?_
  refine bind_ne_dce gfz_ne_dce fun _ => ?_
  simp [except_pure]

lemma minMaxFields_ne_dce {sdata : Json} :
    minMaxFields sdata ≠ .error .dataCollectionError := by
  unfold minMaxFields
  refine bind_ne_dce gfz_ne_dce fun _ => ?_
  refine bind_ne_dce gfz_ne_dce fun _ => ?_
  refine bind_ne_dce gfz_ne_dce fun _ => ?_
  refine bind_ne_dce gfz_ne_dce fun _ => ?_
  refine bind_ne_dce gfz_ne_dce fun _ => ?_
  refine bind_ne_dce gfz_ne_dce fun _ => ?_
  refine bind_ne_dce gfz_ne_dce fun _ => ?_
  refine bind_ne_dce gfz_ne_dce fun _ => ?_
  refine bind_ne_dce gfz_ne_dce fun _ => ?_
  simp [except_pure]

lemma gen24_nodup (data : Json) :
    ((if hasKey data "SAC" then ["SAC"] else []) ++
     (if hasKey data "IDC_2" then ["IDC_2", "UDC_2"] else []) ++
     (if hasKey data "IDC_3" then ["IDC_3", "UDC_3"] else []) ++
     (if hasKey data "IDC_4" then ["IDC_4", "UDC_4"] else [])).Nodup := by
  cases hasKey data "SAC" <;> cases hasKey data "IDC_2" <;>
    cases hasKey data "IDC_3" <;> cases hasKey data "IDC_4" <;> decide

lemma commonFields_keys {sdata data fields : Json}
    (h : commonFields sdata data = .ok fields) :
    ∃ fkvs, fields = .obj fkvs ∧ fkvs.map Prod.fst =
      ["FAC", "IAC", "IDC", "PAC", "UAC", "UDC",
       "DAY_ENERGY", "YEAR_ENERGY", "TOTAL_ENERGY"] ++
      ((if hasKey data "SAC" then ["SAC"] else []) ++
       (if hasKey data "IDC_2" then ["IDC_2", "UDC_2"] else []) ++
       (if hasKey data "IDC_3" then ["IDC_3", "UDC_3"] else []) ++
       (if hasKey data "IDC_4" then ["IDC_4", "UDC_4"] else [])) := by
  unfold commonFields at h
  cases h1 : get_float_or_zero sdata "FAC" with
  | error e => rw [h1, except_bind_err] at h; cases h
  | ok v1 =>
  rw [h1, except_bind_ok] at h
  cases h2 : get_float_or_zero sdata "IAC" with
  | error e => rw [h2, except_bind_err] at h; cases h
  | ok v2 =>
  rw [h2, except_bind_ok] at h
  cases h3 : get_float_or_zero sdata "IDC" with
  | error e => rw [h3, except_bind_err] at h; cases h
  | ok v3 =>
  rw [h3, except_bind_ok] at h
  cases h4 : get_float_or_zero sdata "PAC" with
  | error e => rw [h4, except_bind_err] at h; cases h
  | ok v4 =>
  rw [h4, except_bind_ok] at h
  cases h5 : get_float_or_zero sdata "UAC" with
  | error e => rw [h5, except_bind_err] at h; cases h
  | ok v5 =>
  rw [h5, except_bind_ok] at h
  cases h6 : get_float_or_zero sdata "UDC" with
  | error e => rw [h6, except_bind_err] at h; cases h
  | ok v6 =>
  rw [h6, except_bind_ok] at h
  cases h7 : get_float_or_zero sdata "DAY_ENERGY" with
  | error e => rw [h7, except_bind_err] at h; cases h
  | ok v7 =>
  rw [h7, except_bind_ok] at h
  cases h8 : get_float_or_zero sdata "YEAR_ENERGY" with
  | error e => rw [h8, except_bind_err] at h; cases h
  | ok v8 =>
  rw [h8, except_bind_ok] at h
  cases h9 : get_float_or_zero sdata "TOTAL_ENERGY" with
  | error e => rw [h9, except_bind_err] at h; cases h
  | ok v9 =>
  rw [h9, except_bind_ok] at h
  cases hf : (((if hasKey data "SAC" then ["SAC"] else []) ++
      (if hasKey data "IDC_2" then ["IDC_2", "UDC_2"] else []) ++
      (if hasKey data "IDC_3" then ["IDC_3", "UDC_3"] else []) ++
      (if hasKey data "IDC_4" then ["IDC_4", "UDC_4"] else [])).foldlM
        (fun acc f => do
          let v ← get_float_or_zero sdata f
          pure (objSet acc f (.num v)))
        [("FAC", Json.num v1), ("IAC", Json.num v2), ("IDC", Json.num v3),
         ("PAC", Json.num v4), ("UAC", Json.num v5), ("UDC", Json.num v6),
         ("DAY_ENERGY", Json.num v7), ("YEAR_ENERGY", Json.num v8),
         ("TOTAL_ENERGY", Json.num v9)]) with
  | error e => rw [hf, except_bind_err] at h; cases h
  | ok out =>
  rw [hf, except_bind_ok, except_pure] at h
  cases h
  refine ⟨out, rfl, ?_⟩
  have hkeys := foldlM_objSet_keys sdata _ _ out (gen24_nodup data) ?_ hf
  · simpa using hkeys
  · intro f hfm
    rw [jlookup_eq_none]
    have hf7 := gen24_mem hfm
    intro hbase
    simp only [List.map_cons, List.map_nil] at hbase
    fin_cases hf7 <;> simp_all

lemma translate_common_ne_dce {d bd ts : Json}
    (hc : headCollection d = .ok (.str "CommonInverterData"))
    (ht : headTimestamp d = .ok ts)
    (hb : bodyData d = .ok bd) :
    translate_response d ≠ .error .dataCollectionError := by
  have e1 : jstrEq (Json.str "CommonInverterData") "CommonInverterData" = true := by decide
  simp only [translate_response, hc, ht, hb]
  rw [if_pos e1]
  cases hds : pyGetItem bd "DeviceStatus" with
  | error e =>
    intro hcon
    injection hcon with h4
    exact pyGetItem_ne_dce (h4 ▸ hds)
  | ok ds =>
    cases hcf : commonFields d bd with
    | error e =>
      intro hcon
      injection hcon with h4
      exact commonFields_ne_dce (h4 ▸ hcf)
    | ok flds =>
      intro hcon
      exact Except.noConfusion hcon

lemma translate_threeP_ne_dce {d bd ts : Json}
    (hc : headCollection d = .ok (.str "3PInverterData"))
    (ht : headTimestamp d = .ok ts)
    (hb : bodyData d = .ok bd) :
    translate_response d ≠ .error .dataCollectionError := by
  have n1 : ¬(jstrEq (Json.str "3PInverterData") "CommonInverterData" = true) := by decide
  have e2 : jstrEq (Json.str "3PInverterData") "3PInverterData" = true := by decide
  simp only [translate_response, hc, ht, hb]
  rw [if_neg n1, if_pos e2]
  cases h3p : threePFields d with
  | error e =>
    intro hcon
    injection hcon with h4
    exact threePFields_ne_dce (h4 ▸ h3p)
  | ok flds =>
    intro hcon
    exact Except.noConfusion hcon

lemma translate_minMax_ne_dce {d bd ts : Json}
    (hc : headCollection d = .ok (.str "MinMaxInverterData"))
    (ht : headTimestamp d = .ok ts)
    (hb : bodyData d = .ok bd) :
    translate_response d ≠ .error .dataCollectionError := by
  have n1 : ¬(jstrEq (Json.str "MinMaxInverterData") "CommonInverterData" = true) := by decide
  have n2 : ¬(jstrEq (Json.str "MinMaxInverterData") "3PInverterData" = true) := by decide
  have e3 : jstrEq (Json.str "MinMaxInverterData") "MinMaxInverterData" = true := by decide
  simp only [translate_response, hc, ht, hb]
  rw [if_neg n1, if_neg n2, if_pos e3]
  cases hmm : minMaxFields d with
  | error e =>
    intro hcon
    injection hcon with h4
    exact minMaxFields_ne_dce (h4 ▸ hmm)
  | ok flds =>
    intro hcon
    exact Except.noConfusion hcon

/-- C7: the daylight gate is active exactly when the override flag
(`IGNORE_SUN_DOWN`) is set or `sunrise < now < sunset` with both bounds
strictly exclusive; `now = sunrise` is inactive, and the override forces
the gate active regardless of `now`. -/
theorem C7_daylight_gate :
    (∀ (ignore : Bool) (sunrise now sunset : Int),
      sun_is_shining ignore sunrise now sunset =
        (if ignore || (decide (sunrise < now) && decide (now < sunset))
         then .ok () else .error .sunIsDown)) ∧
    (∀ sunrise now sunset : Int, sun_is_shining true sunrise now sunset = .ok ()) ∧
    (∀ sunrise sunset : Int,
      sun_is_shining false sunrise sunrise sunset = .error .sunIsDown) := by
  refine ⟨?_, ?_, ?_⟩
  · intro ignore sr now ss
    cases ignore <;> by_cases h1 : sr < now <;> by_cases h2 : now < ss <;>
      simp [sun_is_shining, h1, h2]
  · intro sr now ss
    simp [sun_is_shining]
  · intro sr ss
    simp [sun_is_shining]

/-- C5 (counterexample): on a response with recognized collection type
`CommonInverterData` but no `Body` entry, `translate_response` fails with
the plain `KeyError` raised by the debug-log f-string interpolation, not
with `WrongFroniusData`. -/
theorem C5_counterexample :
    translate_response dNoBody = .error (.keyError "Body") ∧
    (PyErr.keyError "Body") ≠ PyErr.wrongFroniusData := ⟨rfl, by simp⟩

/-- C5 (amended): for every response with a recognized collection type
whose `Head` lookups succeed but whose `Body.Data` lookup raises a
`KeyError`, translate fails with that plain `KeyError` — raised by the
eager f-string interpolation of the debug log — and never reaches the
`WrongFroniusData` (MalformedPayload) error of `get_float_or_zero`. -/
theorem C5_missing_body_keyerror (d c ts : Json) (k : String)
    (hrec : jstrEq c "CommonInverterData" = true ∨
            jstrEq c "3PInverterData" = true ∨
            jstrEq c "MinMaxInverterData" = true)
    (hc : headCollection d = .ok c)
    (ht : headTimestamp d = .ok ts)
    (hb : bodyData d = .error (.keyError k)) :
    translate_response d = .error (.keyError k) ∧
    (PyErr.keyError k) ≠ PyErr.wrongFroniusData := by
  refine ⟨?_, by simp⟩
  simp only [translate_response, hc, ht, hb]

/-- C5 (witness for the amended theorem) at the concrete response
`dNoBody`. -/
theorem C5_missing_body_keyerror_witness :
    translate_response dNoBody = .error (.keyError "Body") ∧
    (PyErr.keyError "Body") ≠ PyErr.wrongFroniusData :=
  C5_missing_body_keyerror dNoBody (.str "CommonInverterData") (.str "T3") "Body"
    (Or.inl rfl) rfl rfl rfl

/-- C6 (counterexample): a response whose `DataCollection` is the
unrecognized value `Foo` but whose `Body` entry is absent fails with a
plain `KeyError` (raised by the debug-log interpolation before the
dispatch), not with `DataCollectionError`. -/
theorem C6_counterexample :
    translate_response dFoo = .error (.keyError "Body") ∧
    (PyErr.keyError "Body") ≠ PyErr.dataCollectionError := ⟨rfl, by simp⟩

/-- C6 (amended): for every response whose `Head` lookups and
`Body.Data` lookup succeed, if the `DataCollection` value compares equal
to none of the three recognized strings then translate fails with
`DataCollectionError`; and if it compares equal to one of them then
translate never fails with `DataCollectionError`. -/
theorem C6_unknown_collection (d c ts bd : Json)
    (hc : headCollection d = .ok c)
    (ht : headTimestamp d = .ok ts)
    (hb : bodyData d = .ok bd) :
    (jstrEq c "CommonInverterData" = false →
     jstrEq c "3PInverterData" = false →
     jstrEq c "MinMaxInverterData" = false →
       translate_response d = .error .dataCollectionError) ∧
    ((jstrEq c "CommonInverterData" || jstrEq c "3PInverterData" ||
      jstrEq c "MinMaxInverterData") = true →
       translate_response d ≠ .error .dataCollectionError) := by
  constructor
  · intro h1 h2 h3
    simp only [translate_response, hc, ht, hb, h1, h2, h3, Bool.false_eq_true, if_false]
  · intro hrec
    simp only [Bool.or_eq_true] at hrec
    rcases hrec with (h1 | h2) | h3
    · rw [jstrEq_true] at h1
      subst h1
      exact translate_common_ne_dce hc ht hb
    · rw [jstrEq_true] at h2
      subst h2
      exact translate_threeP_ne_dce hc ht hb
    · rw [jstrEq_true] at h3
      subst h3
      exact translate_minMax_ne_dce hc ht hb

/-- C6 (witness for the amended theorem): the unrecognized type with a
present body fails with `DataCollectionError`; a recognized type does
not. -/
theorem C6_unknown_collection_witness :
    translate_response dFooBody = .error .dataCollectionError ∧
    translate_response d3P ≠ .error .dataCollectionError := by
  constructor
  · exact (C6_unknown_collection dFooBody (.str "Foo") (.num 0) (.obj [])
      rfl rfl rfl).1 rfl rfl rfl
  · exact (C6_unknown_collection d3P (.str "3PInverterData") (.str "T1") (.obj [])
      rfl rfl rfl).2 (by rfl)

/-- C9: a `CommonInverterData` response whose `Body.Data` is present but
lacks the `DeviceStatus` key makes translate fail with the plain
`KeyError` of the unguarded `data['DeviceStatus']` subscript — neither
`WrongFroniusData` nor `DataCollectionError`. -/
theorem C9_missing_device_status (d ts : Json) (kvs : List (String × Json))
    (hc : headCollection d = .ok (.str "CommonInverterData"))
    (ht : headTimestamp d = .ok ts)
    (hb : bodyData d = .ok (.obj kvs))
    (hds : jlookup kvs "DeviceStatus" = none) :
    translate_response d = .error (.keyError "DeviceStatus") ∧
    (PyErr.keyError "DeviceStatus") ≠ PyErr.wrongFroniusData ∧
    (PyErr.keyError "DeviceStatus") ≠ PyErr.dataCollectionError := by
  refine ⟨?_, by simp, by simp⟩
  have e1 : jstrEq (Json.str "CommonInverterData") "CommonInverterData" = true := by decide
  simp only [translate_response, hc, ht, hb]
  rw [if_pos e1]
  simp only [pyGetItem, hds]

/-- C9 (witness) at the concrete response `dNoDS`. -/
theorem C9_missing_device_status_witness :
    translate_response dNoDS = .error (.keyError "DeviceStatus") :=
  (C9_missing_device_status dNoDS (.str "T4") [("FAC", .obj [("Value", .num 1)])]
    rfl rfl rfl rfl).1

/-- C3: field extraction on a response whose `Body.Data` is a present
mapping: an absent field name yields exactly `0.0`; a present entry
whose `Value` is absent yields `0.0`; a present `Value` yields `0.0`
when falsy (null and the number `0` are falsy) and its float coercion
otherwise — so a missing field and a field with `Value = 0` produce
identical output. -/
theorem C3_field_extraction (d : Json) (kvs : List (String × Json)) (name : String)
    (hb : bodyData d = .ok (.obj kvs)) :
    (jlookup kvs name = none → get_float_or_zero d name = .ok 0) ∧
    (∀ ekvs, jlookup kvs name = some (.obj ekvs) →
      (jlookup ekvs "Value" = none → get_float_or_zero d name = .ok 0) ∧
      (∀ v, jlookup ekvs "Value" = some v →
        get_float_or_zero d name = if truthy v then pyFloat v else .ok 0)) ∧
    truthy .null = false ∧
    truthy (.num 0) = false ∧
    (∀ q : Rat, pyFloat (.num q) = .ok q) := by
  refine ⟨?_, ?_, rfl, by simp [truthy], fun q => rfl⟩
  · intro hnone
    simp [get_float_or_zero, hb, pyDictGet, hnone, jlookup, truthy]
  · intro ekvs hek
    constructor
    · intro hvn
      simp [get_float_or_zero, hb, pyDictGet, hek, hvn, jlookup, truthy]
    · intro v hv
      simp [get_float_or_zero, hb, pyDictGet, hek, hv]

/-- C3 (witness): on `dCommon`, the missing field `IAC` reads as zero
and the populated field `FAC` reads as its numeric value. -/
theorem C3_field_extraction_witness :
    get_float_or_zero dCommon "IAC" = .ok 0 ∧
    get_float_or_zero dCommon "FAC" = .ok 50 := by
  constructor
  · exact (C3_field_extraction dCommon dCommonData "IAC" rfl).1 rfl
  · have h := ((C3_field_extraction dCommon dCommonData "FAC" rfl).2.1
      [("Value", Json.num 50)] rfl).2 (Json.num 50) rfl
    simpa [truthy, pyFloat] using h

/-- C2: whenever translate succeeds, the collection type was one of the
three recognized strings; the output is exactly 2 points for
`CommonInverterData` — measurements `DeviceStatus` then
`CommonInverterData` — and exactly 1 point otherwise, with the
collection type as measurement; and every point carries the response's
`Head.Timestamp` as its time. -/
theorem C2_point_shape (d : Json) (c : String) (pts : List Point)
    (h : translate_response d = .ok pts)
    (hc : headCollection d = .ok (.str c)) :
    ∃ ts, headTimestamp d = .ok ts ∧
      (∀ p ∈ pts, p.time = ts) ∧
      (c = "CommonInverterData" ∨ c = "3PInverterData" ∨ c = "MinMaxInverterData") ∧
      pts.map Point.measurement =
        (if c = "CommonInverterData"
         then ["DeviceStatus", "CommonInverterData"] else [c]) ∧
      pts.length = (if c = "CommonInverterData" then 2 else 1) := by
  simp only [translate_response, hc] at h
  cases ht : headTimestamp d with
  | error e => simp only [ht] at h; cases h
  | ok ts =>
  simp only [ht] at h
  cases hbd : bodyData d with
  | error e => simp only [hbd] at h; cases h
  | ok bd =>
  simp only [hbd] at h
  refine ⟨ts, rfl, ?_⟩
  by_cases h1 : c = "CommonInverterData"
  · subst h1
    rw [if_pos (by decide : jstrEq (Json.str "CommonInverterData") "CommonInverterData" = true)] at h
    cases hds : pyGetItem bd "DeviceStatus" with
    | error e => simp only [hds] at h; cases h
    | ok ds =>
    simp only [hds] at h
    cases hcf : commonFields d bd with
    | error e => simp only [hcf] at h; cases h
    | ok flds =>
    simp only [hcf] at h
    injection h with h2
    subst h2
    refine ⟨?_, Or.inl rfl, by simp, by simp⟩
    intro p hp
    rcases hp with _ | ⟨_, hp⟩
    · rfl
    · rcases hp with _ | ⟨_, hp⟩
      · rfl
      · cases hp
  · have n1 : ¬(jstrEq (Json.str c) "CommonInverterData" = true) := by
      simpa [jstrEq] using h1
    rw [if_neg n1] at h
    by_cases h2 : c = "3PInverterData"
    · subst h2
      rw [if_pos (by decide : jstrEq (Json.str "3PInverterData") "3PInverterData" = true)] at h
      cases h3p : threePFields d with
      | error e => simp only [h3p] at h; cases h
      | ok flds =>
      simp only [h3p] at h
      injection h with hq
      subst hq
      refine ⟨?_, Or.inr (Or.inl rfl), by simp, by simp⟩
      intro p hp
      rcases hp with _ | ⟨_, hp⟩
      · rfl
      · cases hp
    · have n2 : ¬(jstrEq (Json.str c) "3PInverterData" = true) := by
        simpa [jstrEq] using h2
      rw [if_neg n2] at h
      by_cases h3 : c = "MinMaxInverterData"
      · subst h3
        rw [if_pos (by decide : jstrEq (Json.str "MinMaxInverterData") "MinMaxInverterData" = true)] at h
        cases hmm : minMaxFields d with
        | error e => simp only [hmm] at h; cases h
        | ok flds =>
        simp only [hmm] at h
        injection h with hq
        subst hq
        refine ⟨?_, Or.inr (Or.inr rfl), by simp, by simp⟩
        intro p hp
        rcases hp with _ | ⟨_, hp⟩
        · rfl
        · cases hp
      · have n3 : ¬(jstrEq (Json.str c) "MinMaxInverterData" = true) := by
          simpa [jstrEq] using h3
        rw [if_neg n3] at h
        cases h

/-- C2 (witness) at the concrete response `d3P`. -/
theorem C2_point_shape_witness :
    ∃ ts, headTimestamp d3P = .ok ts ∧
      (∀ p ∈ pts3P, p.time = ts) ∧
      ("3PInverterData" = "CommonInverterData" ∨
       "3PInverterData" = "3PInverterData" ∨
       "3PInverterData" = "MinMaxInverterData") ∧
      pts3P.map Point.measurement =
        (if "3PInverterData" = "CommonInverterData"
         then ["DeviceStatus", "CommonInverterData"] else ["3PInverterData"]) ∧
      pts3P.length = (if "3PInverterData" = "CommonInverterData" then 2 else 1) :=
  C2_point_shape d3P "3PInverterData" pts3P rfl rfl

/-- C4: for a successfully translated `CommonInverterData` response with
data section `kvs`, the second point's fields dict has exactly the nine
fixed keys in order, followed by `SAC` when the `SAC` key exists in the
raw data, by `IDC_2`/`UDC_2` when `IDC_2` exists, by `IDC_3`/`UDC_3`
when `IDC_3` exists and by `IDC_4`/`UDC_4` when `IDC_4` exists —
presence being raw key existence, not the field-extraction rule. -/
theorem C4_common_field_set (d : Json) (kvs : List (String × Json)) (pts : List Point)
    (h : translate_response d = .ok pts)
    (hc : headCollection d = .ok (.str "CommonInverterData"))
    (hb : bodyData d = .ok (.obj kvs)) :
    ∃ ts ds fkvs,
      pts = [⟨"DeviceStatus", ts, ds⟩, ⟨"CommonInverterData", ts, .obj fkvs⟩] ∧
      fkvs.map Prod.fst =
        ["FAC", "IAC", "IDC", "PAC", "UAC", "UDC",
         "DAY_ENERGY", "YEAR_ENERGY", "TOTAL_ENERGY"] ++
        (if (jlookup kvs "SAC").isSome then ["SAC"] else []) ++
        (if (jlookup kvs "IDC_2").isSome then ["IDC_2", "UDC_2"] else []) ++
        (if (jlookup kvs "IDC_3").isSome then ["IDC_3", "UDC_3"] else []) ++
        (if (jlookup kvs "IDC_4").isSome then ["IDC_4", "UDC_4"] else []) := by
  simp only [translate_response, hc, hb] at h
  cases ht : headTimestamp d with
  | error e => simp only [ht] at h; cases h
  | ok ts =>
  simp only [ht] at h
  rw [if_pos (by decide : jstrEq (Json.str "CommonInverterData") "CommonInverterData" = true)] at h
  cases hds : pyGetItem (Json.obj kvs) "DeviceStatus" with
  | error e => simp only [hds] at h; cases h
  | ok ds =>
  simp only [hds] at h
  cases hcf : commonFields d (Json.obj kvs) with
  | error e => simp only [hcf] at h; cases h
  | ok flds =>
  simp only [hcf] at h
  injection h with h2
  subst h2
  obtain ⟨fkvs, rfl, hkeys⟩ := commonFields_keys hcf
  refine ⟨ts, ds, fkvs, rfl, ?_⟩
  rw [hkeys]
  simp [hasKey, List.append_assoc]

/-- C4 (witness) at the concrete response `dCommon` (only the `SAC`
conditional key is present). -/
theorem C4_common_field_set_witness :
    ∃ ts ds fkvs,
      [(⟨"DeviceStatus", Json.str "T2", .obj [("StatusCode", .num 7)]⟩ : Point),
       ⟨"CommonInverterData", Json.str "T2",
        .obj [("FAC", .num 50), ("IAC", .num 0), ("IDC", .num 0),
              ("PAC", .num 0), ("UAC", .num 0), ("UDC", .num 0),
              ("DAY_ENERGY", .num 0), ("YEAR_ENERGY", .num 0),
              ("TOTAL_ENERGY", .num 0), ("SAC", .num 12)]⟩] =
        [⟨"DeviceStatus", ts, ds⟩, ⟨"CommonInverterData", ts, .obj fkvs⟩] ∧
      fkvs.map Prod.fst =
        ["FAC", "IAC", "IDC", "PAC", "UAC", "UDC",
         "DAY_ENERGY", "YEAR_ENERGY", "TOTAL_ENERGY"] ++
        (if (jlookup dCommonData "SAC").isSome then ["SAC"] else []) ++
        (if (jlookup dCommonData "IDC_2").isSome then ["IDC_2", "UDC_2"] else []) ++
        (if (jlookup dCommonData "IDC_3").isSome then ["IDC_3", "UDC_3"] else []) ++
        (if (jlookup dCommonData "IDC_4").isSome then ["IDC_4", "UDC_4"] else []) :=
  C4_common_field_set dCommon dCommonData _ rfl rfl rfl

lemma cycleEndpoints_no_write :
    ∀ (fs : List (Except PyErr Json)) (sdata : Json) (acc : List Point),
    writes (cycleEndpoints sdata fs acc).events = [] := by
  intro fs
  induction fs with
  | nil => intro sdata acc; simp [cycleEndpoints, writes]
  | cons f rest ih =>
    intro sdata acc
    cases f with
    | error e => simp [cycleEndpoints, writes]
    | ok j =>
      cases htr : translate_response j with
      | error e => simp [cycleEndpoints, htr, writes]
      | ok pts =>
        simp only [cycleEndpoints, htr, writes, List.filterMap_cons]
        exact ih j (acc ++ pts)

lemma cycleEndpoints_ok_all :
    ∀ (fs : List (Except PyErr Json)) (sdata : Json) (acc b : List Point),
    (cycleEndpoints sdata fs acc).res = .ok b →
    ∀ f ∈ fs, ∃ j pts, f = .ok j ∧ translate_response j = .ok pts := by
  intro fs
  induction fs with
  | nil => intro sdata acc b _ f hf; cases hf
  | cons f rest ih =>
    intro sdata acc b hres g hg
    cases f with
    | error e => simp [cycleEndpoints] at hres
    | ok j =>
      cases htr : translate_response j with
      | error e => simp [cycleEndpoints, htr] at hres
      | ok pts =>
        simp only [cycleEndpoints, htr] at hres
        rcases hg with _ | ⟨_, hg'⟩
        · exact ⟨j, pts, rfl, htr⟩
        · exact ih j (acc ++ pts) b hres g hg'

lemma writes_append (xs ys : List Ev) :
    writes (xs ++ ys) = writes xs ++ writes ys := by
  simp [writes]

lemma writes_slept (n : Nat) : writes [.slept n] = [] := rfl

lemma writes_wrote_slept (b : List Point) (n : Nat) :
    writes [.wrote b, .slept n] = [b] := rfl

lemma writes_wrote (b : List Point) : writes [.wrote b] = [b] := rfl

/-- C1: whenever a batch is handed to the sink in a cycle, the daylight
gate passed, every endpoint of the cycle was fetched and translated
successfully, the batch is exactly the accumulated endpoint output, and
that sink call is the only one of the cycle.  Contrapositive: a cycle in
which any endpoint's fetch, parse or translate fails never invokes the
sink, and the points accumulated from earlier endpoints are
discarded. -/
theorem C1_batch_atomicity (sdata : Json) (inp : CycleInput) (b : List Point)
    (hb : b ∈ writes (cycleBody sdata inp).events) :
    inp.sunErr = none ∧
    writes (cycleBody sdata inp).events = [b] ∧
    (cycleEndpoints sdata inp.fetches []).res = .ok b ∧
    ∀ f ∈ inp.fetches, ∃ j pts, f = .ok j ∧ translate_response j = .ok pts := by
  obtain ⟨sunErr, fetches, sinkErr⟩ := inp
  cases sunErr with
  | some e => simp [cycleBody, writes] at hb
  | none =>
    cases hres : (cycleEndpoints sdata fetches []).res with
    | error e =>
      have hev : (cycleBody sdata ⟨none, fetches, sinkErr⟩).events =
          (cycleEndpoints sdata fetches []).events := by
        simp [cycleBody, hres]
      rw [hev, cycleEndpoints_no_write] at hb
      cases hb
    | ok batch =>
      have hnw := cycleEndpoints_no_write fetches sdata []
      have hw : writes (cycleBody sdata ⟨none, fetches, sinkErr⟩).events = [batch] := by
        cases sinkErr with
        | some e =>
          have hev : (cycleBody sdata ⟨none, fetches, some e⟩).events =
              (cycleEndpoints sdata fetches []).events ++ [.wrote batch] := by
            simp [cycleBody, hres]
          rw [hev, writes_append, hnw, writes_wrote]
          rfl
        | none =>
          have hev : (cycleBody sdata ⟨none, fetches, none⟩).events =
              (cycleEndpoints sdata fetches []).events ++
                [.wrote batch, .slept BACKOFF_INTERVAL] := by
            simp [cycleBody, hres]
          rw [hev, writes_append, hnw, writes_wrote_slept]
          rfl
      rw [hw] at hb
      rcases hb with _ | ⟨_, hb2⟩
      · exact ⟨rfl, hw, rfl, cycleEndpoints_ok_all fetches sdata [] b hres⟩
      · cases hb2

/-- C1 (witness): the fully successful one-endpoint cycle `inpOk` writes
its sole batch `pts3P` exactly once. -/
theorem C1_batch_atomicity_witness :
    inpOk.sunErr = none ∧
    writes (cycleBody Json.null inpOk).events = [pts3P] ∧
    (cycleEndpoints Json.null inpOk.fetches []).res = .ok pts3P ∧
    ∀ f ∈ inpOk.fetches, ∃ j pts, f = .ok j ∧ translate_response j = .ok pts := by
  apply C1_batch_atomicity
  rw [show writes (cycleBody Json.null inpOk).events = [pts3P] from rfl]
  exact List.mem_singleton.mpr rfl

/-- C8: the supervisor catches every exception a cycle raises and sleeps
before retrying — 60 seconds for `SunIsDown`, 10 seconds for
`ConnectionError` and for every other failure — so no cycle error stops
the loop; the loop stops exactly when the external `KeyboardInterrupt`
reaches the outer handler. -/
theorem C8_supervisor (sdata : Json) (inp : CycleInput) :
    ((superviseStep sdata inp).stopped = true ↔
      (cycleBody sdata inp).err = some .keyboardInterrupt) ∧
    (∀ e, (cycleBody sdata inp).err = some e → e ≠ .keyboardInterrupt →
      (superviseStep sdata inp).stopped = false ∧
      (superviseStep sdata inp).events =
        (cycleBody sdata inp).events ++
          [.slept (if e = .sunIsDown then 60 else 10)] ∧
      ∀ rest, runLoop sdata (inp :: rest) =
        (superviseStep sdata inp).events ++
          runLoop (superviseStep sdata inp).data rest) ∧
    ((cycleBody sdata inp).err = none →
      (superviseStep sdata inp).stopped = false) := by
  cases herr : (cycleBody sdata inp).err with
  | none =>
    refine ⟨by simp [superviseStep, herr], ?_, fun _ => by simp [superviseStep, herr]⟩
    intro e he
    cases he
  | some e =>
    refine ⟨?_, ?_, ?_⟩
    · cases e <;> simp [superviseStep, herr]
    · intro e2 he2 hne
      injection he2 with h2
      subst h2
      cases e <;>
        first
        | exact absurd rfl hne
        | exact ⟨by simp [superviseStep, herr],
                 by simp [superviseStep, herr],
                 fun rest => by simp [runLoop, superviseStep, herr]⟩
    · intro hn
      cases hn

/-- C8 (witness): a sun-down cycle sleeps 60 seconds and does not stop
the loop. -/
theorem C8_supervisor_witness :
    (superviseStep Json.null inpSun).stopped = false ∧
    (superviseStep Json.null inpSun).events = [Ev.slept 60] := by
  have h := (C8_supervisor Json.null inpSun).2.1 .sunIsDown rfl (by simp)
  exact ⟨h.1, h.2.1.trans rfl⟩

/-- C10: the stored raw response `self.data` is cleared (set to the
empty dict) exactly on the generic-error path of the supervisor; after a
`SunIsDown` or `ConnectionError` wait — and on success or interrupt —
the handler leaves `self.data` exactly as the cycle body left it, and a
gate-failed cycle leaves it exactly as the previous attempt left it. -/
theorem C10_state_reset (sdata : Json) (inp : CycleInput) :
    ((cycleBody sdata inp).err = some .sunIsDown →
      (superviseStep sdata inp).data = (cycleBody sdata inp).data) ∧
    ((cycleBody sdata inp).err = some .connectionError →
      (superviseStep sdata inp).data = (cycleBody sdata inp).data) ∧
    (∀ e, inp.sunErr = some e → (cycleBody sdata inp).data = sdata) ∧
    (∀ e, (cycleBody sdata inp).err = some e →
      e ≠ .sunIsDown → e ≠ .connectionError → e ≠ .keyboardInterrupt →
      (superviseStep sdata inp).data = .obj []) ∧
    ((cycleBody sdata inp).err = none →
      (superviseStep sdata inp).data = (cycleBody sdata inp).data) ∧
    ((cycleBody sdata inp).err = some .keyboardInterrupt →
      (superviseStep sdata inp).data = (cycleBody sdata inp).data) := by
  refine ⟨?_, ?_, ?_, ?_, ?_, ?_⟩
  · intro h; simp [superviseStep, h]
  · intro h; simp [superviseStep, h]
  · intro e he
    obtain ⟨sunErr, fetches, sinkErr⟩ := inp
    cases sunErr with
    | some e2 => simp [cycleBody]
    | none => cases he
  · intro e he h1 h2 h3
    cases e <;> simp_all [superviseStep]
  · intro h; simp [superviseStep, h]
  · intro h; simp [superviseStep, h]

/-- C10 (witness): a sun-down cycle keeps the previous stored response;
a generic endpoint error clears it to the empty dict. -/
theorem C10_state_reset_witness :
    (superviseStep Json.null inpSun).data = Json.null ∧
    (superviseStep Json.null inpTypeErr).data = Json.obj [] := by
  constructor
  · have h1 := (C10_state_reset Json.null inpSun).1 rfl
    have h3 := (C10_state_reset Json.null inpSun).2.2.1 .sunIsDown rfl
    rw [h1, h3]
  · exact (C10_state_reset Json.null inpTypeErr).2.2.2.1 .typeError rfl
      (by simp) (by simp) (by simp)
